import Mathlib

/- Shallow embedding of the component-browser pipeline of src/app.py.

   Modelling conventions:
   * Numeric cell values (pandas floats produced by pd.to_numeric with
     errors="coerce") are modelled as exact rationals in the normalized
     fraction type Frac below; a missing or non-numeric cell is none,
     mirroring the NaN that pd.to_numeric produces before fillna(0).
   * Identifier values are modelled as integers; Python str(id) is toString.
   * pandas str.contains(target) is modelled as plain substring containment,
     which coincides with its regex semantics for patterns free of regex
     metacharacters (all patterns appearing in the claims are plain text).
   * A pandas DataFrame is modelled as a list of typed rows plus the list of
     its (whitespace-stripped) column names; the column names drive the
     tolerant column resolution of build_display_df (app.py lines 72-99).
   * Python string comparison used by sorted(...) is lexicographic by code
     point; charsLe below implements exactly that ordering.
   * The rendering of a non-integer quantity (app.py line 128 falls back to
     the float repr) is abstracted as "num/den"; every claim and every
     concrete input below exercises only the integer rendering path, where
     the embedding agrees exactly with int(...) formatting. -/

/- Fuel-based gcd that the kernel can evaluate; proved equal to Nat.gcd. -/
def gcdF : Nat → Nat → Nat → Nat
  | 0, _, b => b
  | _ + 1, 0, b => b
  | f + 1, a + 1, b => gcdF f (b % (a + 1)) (a + 1)

def natGcd (a b : Nat) : Nat := gcdF (a + 1) a b

/- Exact rational numbers kept in lowest terms with positive denominator,
   implemented so that the kernel evaluates arithmetic on literals. -/
structure Frac where
  num : Int
  den : Nat
deriving DecidableEq

def Frac.norm (n : Int) (d : Nat) : Frac :=
  if d = 0 then ⟨0, 1⟩
  else
    let g := natGcd n.natAbs d
    ⟨n / (g : Int), d / g⟩

def Frac.zero : Frac := ⟨0, 1⟩

def Frac.add (a b : Frac) : Frac :=
  Frac.norm (a.num * (b.den : Int) + b.num * (a.den : Int)) (a.den * b.den)

def Frac.sum (l : List Frac) : Frac := l.foldr Frac.add Frac.zero

/- Conversion to Int exactly as numpy astype(int): truncation toward zero. -/
def Frac.trunc (a : Frac) : Int := a.num.tdiv (a.den : Int)

/- Python float.is_integer on a normalized fraction. -/
def Frac.isInt (a : Frac) : Bool := a.den == 1

/- Lexicographic comparison of char lists by code point, as Python compares
   strings.  Kernel-computable replacement for the Mathlib String order. -/
def charsLe : List Char → List Char → Bool
  | [], _ => true
  | _ :: _, [] => false
  | a :: as, b :: bs => if a = b then charsLe as bs else decide (a.toNat < b.toNat)

def strLe (a b : String) : Bool := charsLe a.data b.data

/- The ordering relation fed to insertionSort, mirroring Python sorted(...). -/
def rStr (a b : String) : Prop := strLe a b = true

instance : DecidableRel rStr := fun a b => instDecidableEqBool (strLe a b) true

/- Substring containment: Python "target in s" / pandas str.contains for a
   metacharacter-free pattern. -/
def strContainsB (hay pat : String) : Bool := decide (pat.data <:+: hay.data)

/- Last-occurrence-wins association lookup: the semantics of
   pd.Series(values, index=keys).to_dict().get(k), where a duplicated key
   keeps the value of its last row. -/
def lastLookup {α β : Type} [DecidableEq α] (m : List (α × β)) (k : α) : Option β :=
  (m.reverse.find? (fun p => decide (p.1 = k))).map (fun p => p.2)

/- Rows of the six normalized relations (values under the canonical columns
   of app.py lines 45-51). -/
structure CraftRow where
  id : Int
  name : String
deriving DecidableEq

structure LocRow where
  id : Int
  name : String
deriving DecidableEq

structure CompRow where
  id : Int
  name : String
  rarity : Option String
  sellPrice : Option Frac
deriving DecidableEq

structure UsageRow where
  componentID : Int
  craftableID : Int
  qty : Option Frac
deriving DecidableEq

structure CompLocRow where
  componentID : Int
  locationID : Int
deriving DecidableEq

structure DisRow where
  src : Int
  res : Int
  qty : Option Frac
deriving DecidableEq

/- The output of prepare_tables (app.py lines 23-60): six tables, each with
   its stripped column-name list (driving column resolution) and its rows. -/
structure Tables where
  craft : List CraftRow
  loc : List LocRow
  comp : List CompRow
  usage : List UsageRow
  compLoc : List CompLocRow
  dis : List DisRow
  craftCols : List String
  locCols : List String
  compCols : List String
  usageCols : List String
  compLocCols : List String
  disCols : List String
deriving DecidableEq

/- One row of the denormalized display table built by build_display_df. -/
structure DisplayRecord where
  componentID : Int
  componentName : String
  rarity : Option String
  sellPrice : Option Frac
  totalNeeded : Int
  uses : String
  foundIn : String
  dismantlesInto : String
deriving DecidableEq

/- The filters dict passed to filter_display (app.py line 204).  The Python
   dict can carry arbitrary keys; filter_display reads only rarity, location,
   craftable, dismantle_to and show_unknown.  nameSearch is carried here to
   model a dict entry that the function never consults. -/
structure Filters where
  rarity : Option String := none
  location : Option String := none
  craftable : Option String := none
  dismantle_to : Option String := none
  nameSearch : Option String := none
  show_unknown : Bool := true
deriving DecidableEq

/- app.py lines 72-76: return the first candidate column name present. -/
def col (columns : List String) (candidates : List String) : Option String :=
  candidates.find? (fun c => columns.contains c)

/- Candidate lists, verbatim from app.py lines 79-99. -/
def compIdCands : List String := ["ComponentID", "Component Id", "ID", "componentid"]

def compNameCands : List String := ["ComponentName", "Component Name", "Name"]

def compRarityCands : List String := ["ComponentRarity", "Rarity"]

def compPriceCands : List String := ["ComponentSellPrice", "Sell Price", "Price"]

def craftIdCands : List String := ["CraftableID", "Craftable Id", "CraftableID"]

def craftNameCands : List String := ["CraftableName", "Craftable Name", "Name"]

def locIdCands : List String := ["LocationID", "Location Id", "LocationID"]

def locNameCands : List String := ["LocationName", "Location Name", "Name"]

def usageCompCands : List String := ["ComponentID", "Component Id", "ComponentID"]

def usageCraftCands : List String := ["CraftableID", "Craftable Id", "CraftableID"]

def usageQtyCands : List String := ["UsageQuantity", "Usage Quantity", "Quantity", "Qty"]

def compLocCompCands : List String := ["ComponentID", "Component Id", "ComponentID"]

def compLocLocCands : List String := ["LocationID", "Location Id", "LocationID"]

def disSrcCands : List String := ["SourceComponentID", "Source Component ID", "SourceComponentID"]

def disResCands : List String := ["ResultComponentID", "Result Component ID", "ResultComponentID"]

def disQtyCands : List String := ["Quantity", "Qty", "quantity"]

/- Resolution predicates for the branch conditions of build_display_df. -/
def comp_cols_ok (t : Tables) : Bool :=
  (col t.compCols compIdCands).isSome && (col t.compCols compNameCands).isSome

def usage_cols_ok (t : Tables) : Bool :=
  (col t.usageCols usageCompCands).isSome && (col t.usageCols usageCraftCands).isSome

def usage_qty_ok (t : Tables) : Bool := (col t.usageCols usageQtyCands).isSome

def loc_cols_ok (t : Tables) : Bool :=
  (col t.compLocCols compLocCompCands).isSome && (col t.compLocCols compLocLocCands).isSome
    && (col t.locCols locIdCands).isSome && (col t.locCols locNameCands).isSome

def dis_cols_ok (t : Tables) : Bool :=
  (col t.disCols disSrcCands).isSome && (col t.disCols disResCands).isSome

def dis_qty_ok (t : Tables) : Bool := (col t.disCols disQtyCands).isSome

def craft_cols_ok (t : Tables) : Bool :=
  (col t.craftCols craftIdCands).isSome && (col t.craftCols craftNameCands).isSome

/- app.py lines 113-115: craft_map is the CraftableID -> CraftableName dict,
   empty when the craftable columns do not resolve. -/
def craft_map (t : Tables) (k : Int) : Option String :=
  if craft_cols_ok t then lastLookup (t.craft.map (fun r => (r.id, r.name))) k else none

/- app.py line 138: LocationID -> LocationName dict. -/
def loc_map (t : Tables) (k : Int) : Option String :=
  lastLookup (t.loc.map (fun r => (r.id, r.name))) k

/- app.py line 158: ComponentID -> ComponentName dict over the comp sheet. -/
def res_map (t : Tables) (k : Int) : Option String :=
  lastLookup (t.comp.map (fun r => (r.id, r.name))) k

/- pd.to_numeric(..., errors="coerce").fillna(0): a non-numeric or missing
   cell becomes 0 (app.py lines 120 and 161). -/
def coerceNum (o : Option Frac) : Frac := o.getD Frac.zero

/- app.py lines 128 and 167: int(q) when q.is_integer() else q. -/
def qtyStr (q : Frac) : String :=
  if q.isInt then toString q.num else toString q.num ++ "/" ++ toString q.den

/- The group of ComponentUsage rows of one component, in source-row order
   (pandas groupby preserves the order of rows inside each group). -/
def usageRows (t : Tables) (cid : Int) : List UsageRow :=
  t.usage.filter (fun r => decide (r.componentID = cid))

/- app.py lines 127-128: one entry of the Uses string; an unmatched
   CraftableID falls back to str(id). -/
def usageEntry (t : Tables) (r : UsageRow) : String :=
  ((craft_map t r.craftableID).getD (toString r.craftableID))
    ++ " (" ++ qtyStr (coerceNum r.qty) ++ ")"

/- app.py lines 124-129: build_usage_text over one group. -/
def build_usage_text (t : Tables) (g : List UsageRow) : String :=
  let rows := g.map (usageEntry t)
  if rows = [] then "No known use" else String.intercalate ", " rows

def compLocRows (t : Tables) (cid : Int) : List CompLocRow :=
  t.compLoc.filter (fun r => decide (r.componentID = cid))

/- app.py line 145: resolved location name with str(id) fallback. -/
def locNameOf (t : Tables) (lid : Int) : String :=
  (loc_map t lid).getD (toString lid)

/- sorted(set(rows)) of app.py line 147: the sorted duplicate-free list. -/
def sortedLocNames (t : Tables) (g : List CompLocRow) : List String :=
  List.insertionSort rStr ((g.map (fun r => locNameOf t r.locationID)).dedup)

/- app.py lines 142-147: build_loc_text over one group. -/
def build_loc_text (t : Tables) (g : List CompLocRow) : String :=
  if g.map (fun r => locNameOf t r.locationID) = [] then ""
  else String.intercalate ", " (sortedLocNames t g)

def disRows (t : Tables) (sid : Int) : List DisRow :=
  t.dis.filter (fun r => decide (r.src = sid))

/- app.py lines 166-167: one entry of the DismantlesInto string, with the
   "x" suffix after the quantity and str(id) fallback for the result name. -/
def disEntry (t : Tables) (r : DisRow) : String :=
  ((res_map t r.res).getD (toString r.res))
    ++ " (" ++ qtyStr (coerceNum r.qty) ++ "x)"

/- app.py lines 163-168: build_dis_text over one group. -/
def build_dis_text (t : Tables) (g : List DisRow) : String :=
  let rows := g.map (disEntry t)
  if rows = [] then "Cannot be dismantled" else String.intercalate ", " rows

/- One output row of build_display_df for one component row (the set_index /
   join / fillna sequence of app.py lines 177-184).  A component whose group
   is absent receives NaN from the left join and then the fillna default;
   groupby never produces an empty group, so the dead else-branches of the
   three build_*_text helpers are unreachable there. -/
def mkRecord (t : Tables) (c : CompRow) : DisplayRecord :=
  { componentID := c.id
    componentName := c.name
    rarity := if (col t.compCols compRarityCands).isSome then c.rarity else none
    sellPrice := if (col t.compCols compPriceCands).isSome then c.sellPrice else none
    totalNeeded :=
      Frac.trunc (if usage_cols_ok t
        then Frac.sum ((usageRows t c.id).map (fun r => coerceNum r.qty))
        else Frac.zero)
    uses := if usage_cols_ok t then build_usage_text t (usageRows t c.id) else "No known use"
    foundIn := if loc_cols_ok t then
        (if compLocRows t c.id = [] then "Unknown" else build_loc_text t (compLocRows t c.id))
      else "Unknown"
    dismantlesInto := if dis_cols_ok t then build_dis_text t (disRows t c.id)
      else "Cannot be dismantled" }

/- app.py lines 171 and 174: the (Source, Result) pairs kept for filtering. -/
def dismantle_lookup (t : Tables) : List (Int × Int) :=
  if dis_cols_ok t then t.dis.map (fun r => (r.src, r.res)) else []

/- app.py build_display_df, lines 62-201.  Missing Component ID or Component
   Name columns hit st.error + st.stop (lines 103-105): the pipeline halts
   with no display table.  When the usage (resp. dismantle) ID columns
   resolve but the quantity column does not, line 118 (resp. 160) assigns a
   3-name column list to a 2-column frame and pandas raises ValueError, which
   also aborts the run; both abort paths are modelled as Except.error. -/
def build_display_df (t : Tables) : Except String (List DisplayRecord × List (Int × Int)) :=
  if !(comp_cols_ok t) then
    Except.error "Could not find Component ID or Component Name columns in the workbook 03_Component sheet."
  else if usage_cols_ok t && !(usage_qty_ok t) then
    Except.error "ValueError: column length mismatch on the 04_ComponentUsage sheet"
  else if dis_cols_ok t && !(dis_qty_ok t) then
    Except.error "ValueError: column length mismatch on the 06_DismantleResults sheet"
  else
    Except.ok (t.comp.map (mkRecord t), dismantle_lookup t)

/- app.py line 225: the Name -> ComponentID dict over the current display
   set (a duplicated name keeps its last row). -/
def name_to_id (df : List DisplayRecord) (n : String) : Option Int :=
  lastLookup (df.map (fun r => (r.componentName, r.componentID))) n

/- The five blocks of filter_display (app.py lines 203-240), in program
   order.  A Python guard "if filters.get(k):" is falsy both for an absent
   key and for an empty string, hence the explicit empty-string tests. -/
def stage_rarity (f : Filters) (l : List DisplayRecord) : List DisplayRecord :=
  match f.rarity with
  | some rv => if rv = "" then l else l.filter (fun x => decide (x.rarity = some rv))
  | none => l

def stage_location (f : Filters) (l : List DisplayRecord) : List DisplayRecord :=
  match f.location with
  | some lv => if lv = "" then l else l.filter (fun x => strContainsB x.foundIn lv)
  | none => l

def stage_craftable (f : Filters) (l : List DisplayRecord) : List DisplayRecord :=
  match f.craftable with
  | some cv => if cv = "" then l else l.filter (fun x => strContainsB x.uses cv)
  | none => l

def stage_dismantle (df : List DisplayRecord) (lk : List (Int × Int)) (f : Filters)
    (l : List DisplayRecord) : List DisplayRecord :=
  match f.dismantle_to with
  | some dv =>
    if dv = "" then l
    else
      match name_to_id df dv with
      | some destId =>
        let ms := (lk.filter (fun p => decide (p.2 = destId))).map (fun p => p.1)
        l.filter (fun x => decide (x.componentID ∈ ms))
      | none => []
  | none => l

def stage_unknown (f : Filters) (l : List DisplayRecord) : List DisplayRecord :=
  if f.show_unknown then l else l.filter (fun x => decide (x.foundIn ≠ "Unknown"))

/- app.py filter_display, lines 203-240: the five blocks applied in order to
   a fresh copy of the input. -/
def filter_display (df : List DisplayRecord) (lk : List (Int × Int)) (f : Filters) :
    List DisplayRecord :=
  stage_unknown f (stage_dismantle df lk f (stage_craftable f (stage_location f (stage_rarity f df))))

/- Concrete inputs used by the counterexamples and witnesses below.
   stdTables fills in the canonical column headers of the workbook. -/
def stdTables (craft : List CraftRow) (loc : List LocRow) (comp : List CompRow)
    (usage : List UsageRow) (compLoc : List CompLocRow) (dis : List DisRow) : Tables :=
  { craft := craft
    loc := loc
    comp := comp
    usage := usage
    compLoc := compLoc
    dis := dis
    craftCols := ["CraftableID", "CraftableName"]
    locCols := ["LocationID", "LocationName"]
    compCols := ["ComponentID", "ComponentName"]
    usageCols := ["ComponentID", "CraftableID", "UsageQuantity"]
    compLocCols := ["ComponentID", "LocationID"]
    disCols := ["SourceComponentID", "ResultComponentID", "Quantity"] }

/- Lower-casing of ASCII letters, used only to state case-insensitive
   containment in a counterexample. -/
def charLower (c : Char) : Char :=
  if 'A'.toNat ≤ c.toNat && c.toNat ≤ 'Z'.toNat then Char.ofNat (c.toNat + 32) else c

def lowerStr (s : String) : String := (s.data.map charLower).asString

def cScrap : CompRow := ⟨1, "Scrap", none, none⟩

/- One usage row with the fractional quantity 5/2 for component 1. -/
def tC1 : Tables := stdTables [] [] [cScrap] [⟨1, 10, some ⟨5, 2⟩⟩] [] []

/- Usage rows with quantities 3 and 5/2 for component 1. -/
def tW1 : Tables := stdTables [] [] [cScrap] [⟨1, 7, some ⟨3, 1⟩⟩, ⟨1, 7, some ⟨5, 2⟩⟩] [] []

/- The worked example of the spec: two usage rows of craftable Widget with
   quantities 2 and 3. -/
def tC2 : Tables :=
  stdTables [⟨10, "Widget"⟩] [] [cScrap] [⟨1, 10, some ⟨2, 1⟩⟩, ⟨1, 10, some ⟨3, 1⟩⟩] [] []

/- Three location rows (one duplicated) for component 1. -/
def tW3 : Tables :=
  stdTables [] [⟨5, "Dam"⟩, ⟨6, "Airfield"⟩] [cScrap] [] [⟨1, 6⟩, ⟨1, 5⟩, ⟨1, 6⟩] []

/- One ComponentLocation row whose LocationID 99 has no Location entry. -/
def tC4 : Tables := stdTables [] [] [cScrap] [] [⟨1, 99⟩] []

/- Valid component sheet, but the 02_Location sheet has no resolvable
   LocationID or LocationName column. -/
def tC5 : Tables :=
  { stdTables [] [⟨5, "Dam"⟩] [cScrap] [] [⟨1, 5⟩] [] with locCols := ["SomethingElse"] }

def rA : DisplayRecord :=
  ⟨1, "Alpha", none, none, 0, "No known use", "Unknown", "Cannot be dismantled"⟩

def rB : DisplayRecord :=
  ⟨2, "Beta", none, none, 0, "No known use", "Unknown", "Cannot be dismantled"⟩

def rT : DisplayRecord :=
  ⟨5, "Target", none, none, 0, "No known use", "Unknown", "Cannot be dismantled"⟩

def dfC6 : List DisplayRecord := [rA, rB, rT]

def lkC6 : List (Int × Int) := [(1, 5)]

/- A record whose FoundIn text properly contains the word Unknown. -/
def rUD : DisplayRecord :=
  ⟨1, "X", none, none, 0, "No known use", "Unknown Depths", "Cannot be dismantled"⟩

def rBolt : DisplayRecord :=
  ⟨1, "Bolt", none, none, 0, "No known use", "Unknown", "Cannot be dismantled"⟩

/- A usage row whose CraftableID 42 has no Craftable entry and a dismantle
   row whose ResultComponentID 77 has no Component entry. -/
def tW10 : Tables :=
  stdTables [] [] [cScrap] [⟨1, 42, some ⟨2, 1⟩⟩] [] [⟨1, 77, some ⟨3, 1⟩⟩]

/- Helper facts about the auxiliary kernel-computable definitions. -/

theorem gcdF_eq_gcd : ∀ f a b, a < f → gcdF f a b = Nat.gcd a b := by
  intro f
  induction f with
  | zero => intro a b h; omega
  | succ f ih =>
    intro a b h
    cases a with
    | zero => simp [gcdF, Nat.gcd_zero_left]
    | succ a =>
      have h1 : b % (a + 1) < f := by
        have h2 : b % (a + 1) < a + 1 := Nat.mod_lt b (Nat.succ_pos a)
        omega
      simp only [gcdF]
      rw [ih _ _ h1, Nat.gcd_succ]

theorem natGcd_eq_gcd (a b : Nat) : natGcd a b = Nat.gcd a b :=
  gcdF_eq_gcd _ _ _ (Nat.lt_succ_self a)

theorem char_toNat_inj {a b : Char} (h : a.toNat = b.toNat) : a = b := by
  have h2 := congrArg Char.ofNat h
  rwa [Char.ofNat_toNat, Char.ofNat_toNat] at h2

theorem charsLe_total : ∀ a b : List Char, charsLe a b = true ∨ charsLe b a = true := by
  intro a
  induction a with
  | nil => intro b; left; rfl
  | cons x xs ih =>
    intro b
    cases b with
    | nil => right; rfl
    | cons y ys =>
      by_cases hxy : x = y
      · subst hxy
        rcases ih ys with h | h
        · left; simpa [charsLe] using h
        · right; simpa [charsLe] using h
      · rcases Nat.lt_trichotomy x.toNat y.toNat with h | h | h
        · left; simp [charsLe, hxy, h]
        · exact absurd (char_toNat_inj h) hxy
        · right
          have hyx : ¬ y = x := fun hh => hxy hh.symm
          simp [charsLe, hyx, h]

theorem charsLe_trans :
    ∀ a b c : List Char, charsLe a b = true → charsLe b c = true → charsLe a c = true := by
  intro a
  induction a with
  | nil => intro b c _ _; rfl
  | cons x xs ih =>
    intro b c hab hbc
    cases b with
    | nil => simp [charsLe] at hab
    | cons y ys =>
      cases c with
      | nil => simp [charsLe] at hbc
      | cons z zs =>
        by_cases hxy : x = y
        · subst hxy
          by_cases hyz : x = z
          · subst hyz
            simp only [charsLe, if_pos rfl] at hab hbc ⊢
            exact ih ys zs hab hbc
          · simp only [charsLe, if_pos rfl] at hab
            simpa [charsLe, hyz] using hbc
        · by_cases hyz : y = z
          · subst hyz
            simpa [charsLe, hxy] using hab
          · by_cases hxz : x = z
            · subst hxz
              exfalso
              simp only [charsLe, if_neg hxy, decide_eq_true_eq] at hab
              simp only [charsLe, if_neg hyz, decide_eq_true_eq] at hbc
              omega
            · simp only [charsLe, if_neg hxy, decide_eq_true_eq] at hab
              simp only [charsLe, if_neg hyz, decide_eq_true_eq] at hbc
              simp only [charsLe, if_neg hxz, decide_eq_true_eq]
              omega

theorem charsLe_antisymm :
    ∀ a b : List Char, charsLe a b = true → charsLe b a = true → a = b := by
  intro a
  induction a with
  | nil =>
    intro b hab hba
    cases b with
    | nil => rfl
    | cons y ys => simp [charsLe] at hba
  | cons x xs ih =>
    intro b hab hba
    cases b with
    | nil => simp [charsLe] at hab
    | cons y ys =>
      by_cases hxy : x = y
      · subst hxy
        simp only [charsLe, if_pos rfl] at hab hba
        rw [ih ys hab hba]
      · exfalso
        have hyx : ¬ y = x := fun hh => hxy hh.symm
        simp only [charsLe, if_neg hxy, decide_eq_true_eq] at hab
        simp only [charsLe, if_neg hyx, decide_eq_true_eq] at hba
        omega

instance : IsTotal String rStr :=
  ⟨fun a b => charsLe_total a.data b.data⟩

instance : IsTrans String rStr :=
  ⟨fun a b c hab hbc => charsLe_trans a.data b.data c.data hab hbc⟩

instance : IsAntisymm String rStr :=
  ⟨fun a b hab hba => by
    have h := charsLe_antisymm a.data b.data hab hba
    cases a
    cases b
    exact congrArg String.mk h⟩

/- Python sorted(set(..)) depends only on the multiset of names: the sorted
   deduplicated list is invariant under permutation of the group rows. -/
theorem sortedLocNames_perm (t : Tables) {g1 g2 : List CompLocRow}
    (h : List.Perm g1 g2) : sortedLocNames t g1 = sortedLocNames t g2 := by
  unfold sortedLocNames
  exact List.eq_of_perm_of_sorted
    (((List.perm_insertionSort rStr _).trans
        ((h.map (fun r => locNameOf t r.locationID)).dedup)).trans
      (List.perm_insertionSort rStr _).symm)
    (List.sorted_insertionSort rStr _)
    (List.sorted_insertionSort rStr _)

theorem build_display_df_ok (t : Tables) (hc : comp_cols_ok t = true)
    (hu : usage_cols_ok t = true → usage_qty_ok t = true)
    (hd : dis_cols_ok t = true → dis_qty_ok t = true) :
    build_display_df t = Except.ok (t.comp.map (mkRecord t), dismantle_lookup t) := by
  have h1 : (usage_cols_ok t && !(usage_qty_ok t)) = false := by
    cases hcu : usage_cols_ok t
    · simp
    · simp [hu hcu]
  have h2 : (dis_cols_ok t && !(dis_qty_ok t)) = false := by
    cases hcd : dis_cols_ok t
    · simp
    · simp [hd hcd]
  simp [build_display_df, hc, h1, h2]

theorem stage_rarity_sublist (f : Filters) (l : List DisplayRecord) :
    List.Sublist (stage_rarity f l) l := by
  unfold stage_rarity
  cases f.rarity with
  | none => exact List.Sublist.refl l
  | some rv =>
    by_cases h : rv = ""
    · simp [h]
    · simp only [if_neg h]
      exact List.filter_sublist l

theorem stage_location_sublist (f : Filters) (l : List DisplayRecord) :
    List.Sublist (stage_location f l) l := by
  unfold stage_location
  cases f.location with
  | none => exact List.Sublist.refl l
  | some lv =>
    by_cases h : lv = ""
    · simp [h]
    · simp only [if_neg h]
      exact List.filter_sublist l

theorem stage_craftable_sublist (f : Filters) (l : List DisplayRecord) :
    List.Sublist (stage_craftable f l) l := by
  unfold stage_craftable
  cases f.craftable with
  | none => exact List.Sublist.refl l
  | some cv =>
    by_cases h : cv = ""
    · simp [h]
    · simp only [if_neg h]
      exact List.filter_sublist l

theorem stage_dismantle_sublist (df : List DisplayRecord) (lk : List (Int × Int))
    (f : Filters) (l : List DisplayRecord) : List.Sublist (stage_dismantle df lk f l) l := by
  unfold stage_dismantle
  cases f.dismantle_to with
  | none => exact List.Sublist.refl l
  | some dv =>
    by_cases h : dv = ""
    · simp [h]
    · simp only [if_neg h]
      cases name_to_id df dv with
      | none => exact List.nil_sublist l
      | some destId => exact List.filter_sublist l

theorem stage_unknown_sublist (f : Filters) (l : List DisplayRecord) :
    List.Sublist (stage_unknown f l) l := by
  unfold stage_unknown
  cases h : f.show_unknown
  · simp only [Bool.false_eq_true, if_neg]
    exact List.filter_sublist l
  · simp

theorem stage_unknown_nil (f : Filters) : stage_unknown f [] = [] := by
  unfold stage_unknown
  cases f.show_unknown <;> simp

/-- C1, counterexample: on tC1 the single usage row of component 1 carries the
fractional quantity 5/2, so the exact sum of coerced quantities is 5/2, yet
the pipeline (app.py line 180, fillna(0).astype(int)) reports TotalNeeded = 2,
and 5/2 is not the rational 2: the claimed exact-sum equality fails. -/
theorem totalNeeded_truncates_cex :
    (build_display_df tC1).toOption.map (fun p => p.1.map (fun r => r.totalNeeded))
        = some [2] ∧
    Frac.sum ((usageRows tC1 cScrap.id).map (fun r => coerceNum r.qty)) = ⟨5, 2⟩ ∧
    (⟨5, 2⟩ : Frac) ≠ ⟨2, 1⟩ ∧
    Frac.trunc ⟨5, 2⟩ = 2 := by
  exact ⟨by decide, by decide, by decide, by decide⟩

/-- C1, amended: for every component the TotalNeeded field equals the
truncation toward zero (astype(int)) of the exact sum of the coerced
UsageQuantity values of its ComponentUsage rows, and it is 0 when the
component has no such rows; the pipeline completes without error. -/
theorem totalNeeded_eq_trunc_sum (t : Tables)
    (hc : comp_cols_ok t = true)
    (hu : usage_cols_ok t = true)
    (hq : usage_qty_ok t = true)
    (hd : dis_cols_ok t = true → dis_qty_ok t = true) :
    build_display_df t = Except.ok (t.comp.map (mkRecord t), dismantle_lookup t) ∧
    (∀ c ∈ t.comp, (mkRecord t c).totalNeeded
        = Frac.trunc (Frac.sum ((usageRows t c.id).map (fun r => coerceNum r.qty)))) ∧
    (∀ c ∈ t.comp, usageRows t c.id = [] → (mkRecord t c).totalNeeded = 0) := by
  refine ⟨build_display_df_ok t hc (fun _ => hq) hd, ?_, ?_⟩
  · intro c _
    simp [mkRecord, hu]
  · intro c _ h
    simp [mkRecord, hu, h]
    decide

theorem totalNeeded_eq_trunc_sum_witness :
    comp_cols_ok tW1 = true ∧
    (mkRecord tW1 cScrap).totalNeeded
        = Frac.trunc (Frac.sum ((usageRows tW1 cScrap.id).map (fun r => coerceNum r.qty))) ∧
    (mkRecord tW1 cScrap).totalNeeded = 5 :=
  ⟨by decide,
   (totalNeeded_eq_trunc_sum tW1 (by decide) (by decide) (by decide)
       (fun _ => by decide)).2.1 cScrap (by decide),
   by decide⟩

/-- C2, counterexample: on the two Widget usage rows with quantities 2 and 3
(the worked example of the spec) the pipeline produces the UsedIn text
"Widget (2), Widget (3)" — app.py line 128 writes no x after the quantity —
which differs from the claimed "Widget (2x), Widget (3x)". -/
theorem usedIn_no_x_suffix_cex :
    (build_display_df tC2).toOption.map (fun p => p.1.map (fun r => r.uses))
        = some ["Widget (2), Widget (3)"] ∧
    "Widget (2), Widget (3)" ≠ "Widget (2x), Widget (3x)" := by
  exact ⟨by decide, by decide⟩

/-- C2, amended: for every component with usage rows, UsedIn maps each row in
source-row order (duplicates preserved, not pre-aggregated) to
"<CraftableName> (<qty>)" — with no x suffix after the quantity — joining the
entries with ", "; an unmatched CraftableID falls back to str(id). -/
theorem usedIn_row_order_entries (t : Tables)
    (hc : comp_cols_ok t = true)
    (hu : usage_cols_ok t = true)
    (hq : usage_qty_ok t = true)
    (hd : dis_cols_ok t = true → dis_qty_ok t = true) :
    build_display_df t = Except.ok (t.comp.map (mkRecord t), dismantle_lookup t) ∧
    ∀ c ∈ t.comp, usageRows t c.id ≠ [] →
      (mkRecord t c).uses = String.intercalate ", " ((usageRows t c.id).map (fun r =>
        ((craft_map t r.craftableID).getD (toString r.craftableID))
          ++ " (" ++ qtyStr (coerceNum r.qty) ++ ")")) := by
  refine ⟨build_display_df_ok t hc (fun _ => hq) hd, ?_⟩
  intro c _ h
  have hmap : ¬ ((usageRows t c.id).map (usageEntry t) = []) := by
    simpa [List.map_eq_nil_iff] using h
  simp [mkRecord, hu, build_usage_text, hmap, usageEntry]
  rfl

theorem usedIn_row_order_entries_witness :
    usageRows tC2 cScrap.id ≠ [] ∧
    (mkRecord tC2 cScrap).uses = String.intercalate ", " ((usageRows tC2 cScrap.id).map (fun r =>
      ((craft_map tC2 r.craftableID).getD (toString r.craftableID))
        ++ " (" ++ qtyStr (coerceNum r.qty) ++ ")")) ∧
    (mkRecord tC2 cScrap).uses = "Widget (2), Widget (3)" :=
  ⟨by decide,
   (usedIn_row_order_entries tC2 (by decide) (by decide) (by decide)
       (fun _ => by decide)).2 cScrap (by decide) (by decide),
   by decide⟩

/-- C3: for every component with location rows, FoundIn is the comma-joined
form of the sorted, duplicate-free list of the resolved location names of its
rows (sorted w.r.t. the code-point order rStr, with exactly the resolved
names as members); it is invariant under any permutation of the
ComponentLocation rows; and a component with no location rows gets the
literal "Unknown". -/
theorem foundIn_sorted_dedup_perm_invariant (t : Tables) (hl : loc_cols_ok t = true) :
    (∀ c ∈ t.comp, compLocRows t c.id = [] → (mkRecord t c).foundIn = "Unknown") ∧
    (∀ c ∈ t.comp, compLocRows t c.id ≠ [] →
      (mkRecord t c).foundIn
          = String.intercalate ", " (sortedLocNames t (compLocRows t c.id)) ∧
      (sortedLocNames t (compLocRows t c.id)).Sorted rStr ∧
      (sortedLocNames t (compLocRows t c.id)).Nodup ∧
      (∀ s : String, s ∈ sortedLocNames t (compLocRows t c.id) ↔
        s ∈ (compLocRows t c.id).map (fun r => locNameOf t r.locationID))) ∧
    (∀ l2, List.Perm t.compLoc l2 → ∀ c : CompRow,
      (mkRecord { t with compLoc := l2 } c).foundIn = (mkRecord t c).foundIn) := by
  refine ⟨?_, ?_, ?_⟩
  · intro c _ h
    simp [mkRecord, hl, h]
  · intro c _ h
    have hmap : ¬ ((compLocRows t c.id).map (fun r => locNameOf t r.locationID) = []) := by
      simpa [List.map_eq_nil_iff] using h
    refine ⟨?_, List.sorted_insertionSort rStr _, ?_, ?_⟩
    · simp [mkRecord, hl, h, build_loc_text, hmap]
    · exact (List.perm_insertionSort rStr _).nodup_iff.mpr (List.nodup_dedup _)
    · intro s
      simp only [sortedLocNames]
      rw [(List.perm_insertionSort rStr _).mem_iff, List.mem_dedup]
  · intro l2 hperm c
    have hf : List.Perm (compLocRows t c.id) (compLocRows { t with compLoc := l2 } c.id) :=
      hperm.filter _
    have hok2 : loc_cols_ok { t with compLoc := l2 } = true := hl
    by_cases hemp : compLocRows t c.id = []
    · have hemp2 : compLocRows { t with compLoc := l2 } c.id = [] := by
        have h2 := hf
        rw [hemp] at h2
        exact h2.symm.eq_nil
      simp [mkRecord, hl, hok2, hemp, hemp2]
    · have hemp2 : ¬ (compLocRows { t with compLoc := l2 } c.id = []) := by
        intro hnil
        apply hemp
        have h2 := hf
        rw [hnil] at h2
        exact h2.eq_nil
      have hnames : sortedLocNames t (compLocRows { t with compLoc := l2 } c.id)
          = sortedLocNames t (compLocRows t c.id) := sortedLocNames_perm t hf.symm
      have hmap2 : ¬ ((compLocRows { t with compLoc := l2 } c.id).map
          (fun r => locNameOf { t with compLoc := l2 } r.locationID) = []) := by
        simpa [List.map_eq_nil_iff] using hemp2
      have hmap1 : ¬ ((compLocRows t c.id).map (fun r => locNameOf t r.locationID) = []) := by
        simpa [List.map_eq_nil_iff] using hemp
      simp only [mkRecord, hl, hok2, if_pos, if_neg hemp, if_neg hemp2, build_loc_text,
        if_neg hmap1, if_neg hmap2]
      rw [show sortedLocNames { t with compLoc := l2 } (compLocRows { t with compLoc := l2 } c.id)
            = sortedLocNames t (compLocRows { t with compLoc := l2 } c.id) from rfl, hnames]

theorem foundIn_sorted_dedup_perm_invariant_witness :
    loc_cols_ok tW3 = true ∧
    (mkRecord tW3 cScrap).foundIn
        = String.intercalate ", " (sortedLocNames tW3 (compLocRows tW3 cScrap.id)) ∧
    (mkRecord tW3 cScrap).foundIn = "Airfield, Dam" :=
  ⟨by decide,
   ((foundIn_sorted_dedup_perm_invariant tW3 (by decide)).2.1 cScrap (by decide) (by decide)).1,
   by decide⟩

/-- C4, counterexample: in tC4 the only ComponentLocation row of component 1
has LocationID 99 with no Location match; the row is not dropped — FoundIn
becomes "99" (str of the unmatched id, app.py line 145), not the empty
aggregation the claim requires. -/
theorem unmatched_location_not_dropped_cex :
    (build_display_df tC4).toOption.map (fun p => p.1.map (fun r => r.foundIn))
        = some ["99"] ∧
    loc_map tC4 99 = none ∧
    "99" ≠ "Unknown" ∧ "99" ≠ "" := by
  exact ⟨by decide, by decide, by decide, by decide⟩

/-- C4, amended: a ComponentLocation row whose LocationID has no Location
match is kept, no error is raised, and the string form str(id) of the
unmatched LocationID is used as its location name, appearing in the sorted
aggregation that FoundIn joins. -/
theorem unmatched_location_uses_id_string (t : Tables) (hl : loc_cols_ok t = true) :
    ∀ r ∈ t.compLoc, loc_map t r.locationID = none →
      locNameOf t r.locationID = toString r.locationID ∧
      toString r.locationID ∈ sortedLocNames t (compLocRows t r.componentID) ∧
      (∀ c ∈ t.comp, c.id = r.componentID →
        (mkRecord t c).foundIn
          = String.intercalate ", " (sortedLocNames t (compLocRows t c.id))) := by
  intro r hr hmiss
  have hname : locNameOf t r.locationID = toString r.locationID := by
    simp [locNameOf, hmiss]
  have hrin : r ∈ compLocRows t r.componentID := by
    simp [compLocRows, List.mem_filter, hr]
  refine ⟨hname, ?_, ?_⟩
  · have hmem : toString r.locationID
        ∈ (compLocRows t r.componentID).map (fun r2 => locNameOf t r2.locationID) := by
      rw [← hname]
      exact List.mem_map_of_mem _ hrin
    simp only [sortedLocNames]
    rw [(List.perm_insertionSort rStr _).mem_iff, List.mem_dedup]
    exact hmem
  · intro c _ hcid
    have hne : compLocRows t c.id ≠ [] := by
      rw [hcid]
      intro hnil
      rw [hnil] at hrin
      exact absurd hrin (List.not_mem_nil r)
    have hmap : ¬ ((compLocRows t c.id).map (fun r2 => locNameOf t r2.locationID) = []) := by
      simpa [List.map_eq_nil_iff] using hne
    simp [mkRecord, hl, hne, build_loc_text, hmap]

theorem unmatched_location_uses_id_string_witness :
    loc_map tC4 99 = none ∧
    toString (99 : Int) ∈ sortedLocNames tC4 (compLocRows tC4 1) ∧
    (mkRecord tC4 cScrap).foundIn = "99" := by
  have h := unmatched_location_uses_id_string tC4 (by decide) ⟨1, 99⟩ (by decide) (by decide)
  exact ⟨by decide, h.2.1, by decide⟩

/-- C5, counterexample: tC5 has resolvable Component ID and Name columns but
its 02_Location sheet has neither a LocationID nor a LocationName column; the
pipeline does not halt — it produces a full DisplayRecord set with
FoundIn = "Unknown" (the silent else-branch of app.py lines 151-153), so a
missing Location ID or Location Name column is not a fatal error. -/
theorem missing_location_columns_not_fatal_cex :
    loc_cols_ok tC5 = false ∧
    (build_display_df tC5).toOption
        = some ([{ componentID := 1, componentName := "Scrap", rarity := none,
                   sellPrice := none, totalNeeded := 0, uses := "No known use",
                   foundIn := "Unknown", dismantlesInto := "Cannot be dismantled" }], []) := by
  exact ⟨by decide, by decide⟩

/-- C5, amended: only an unresolvable Component ID or Component Name column is
fatal (the pipeline stops with the configuration error and produces no
records); unresolvable Location ID, Location Name or ComponentLocation
columns degrade silently — the run completes and every record gets
FoundIn = "Unknown". -/
theorem required_columns_policy (t : Tables) :
    (comp_cols_ok t = false →
      build_display_df t
        = Except.error "Could not find Component ID or Component Name columns in the workbook 03_Component sheet.") ∧
    (comp_cols_ok t = true →
      (usage_cols_ok t = true → usage_qty_ok t = true) →
      (dis_cols_ok t = true → dis_qty_ok t = true) →
      loc_cols_ok t = false →
      (build_display_df t).toOption.map (fun p => p.1.map (fun r => r.foundIn))
        = some (t.comp.map (fun _ => "Unknown"))) := by
  constructor
  · intro h
    simp [build_display_df, h]
  · intro hc hu hd hl
    rw [build_display_df_ok t hc hu hd]
    have hrec : ∀ c : CompRow, (mkRecord t c).foundIn = "Unknown" := by
      intro c
      simp [mkRecord, hl]
    have hfun : ((fun r : DisplayRecord => r.foundIn) ∘ mkRecord t)
        = (fun _ : CompRow => "Unknown") := by
      funext c
      exact hrec c
    simp [Except.toOption, List.map_map, hfun]

theorem required_columns_policy_witness :
    comp_cols_ok tC5 = true ∧ loc_cols_ok tC5 = false ∧
    (build_display_df tC5).toOption.map (fun p => p.1.map (fun r => r.foundIn))
      = some ["Unknown"] := by
  refine ⟨by decide, by decide, ?_⟩
  have h := (required_columns_policy tC5).2 (by decide) (fun hh => by decide)
    (fun hh => by decide) (by decide)
  exact h

/-- C6: for every filter specification carrying a (non-empty) dismantleTarget
name, an unresolved name yields the empty result (and no error), while a name
resolving to ID d keeps exactly the records whose ComponentID appears as
SourceComponentID in some dismantle-lookup row whose ResultComponentID is d
(stated for a specification whose other predicates are unset, since all
predicates compose by AND). -/
theorem dismantle_target_filter_spec (df : List DisplayRecord) (lk : List (Int × Int))
    (f : Filters) (dv : String) (hset : f.dismantle_to = some dv) (hne : dv ≠ "") :
    (name_to_id df dv = none → filter_display df lk f = []) ∧
    (∀ d : Int, name_to_id df dv = some d → f.rarity = none → f.location = none →
      f.craftable = none → f.show_unknown = true →
      filter_display df lk f
        = df.filter (fun x => decide (∃ p ∈ lk, p.1 = x.componentID ∧ p.2 = d))) := by
  constructor
  · intro hnone
    have hstage : stage_dismantle df lk f
        (stage_craftable f (stage_location f (stage_rarity f df))) = [] := by
      unfold stage_dismantle
      rw [hset]
      simp [hne, hnone]
    unfold filter_display
    rw [hstage]
    exact stage_unknown_nil f
  · intro d hsome hr hloc hcr hsu
    unfold filter_display
    rw [show stage_rarity f df = df from by unfold stage_rarity; rw [hr]]
    rw [show stage_location f df = df from by unfold stage_location; rw [hloc]]
    rw [show stage_craftable f df = df from by unfold stage_craftable; rw [hcr]]
    have hstage : stage_dismantle df lk f df
        = df.filter (fun x => decide (x.componentID
            ∈ (lk.filter (fun p => decide (p.2 = d))).map (fun p => p.1))) := by
      unfold stage_dismantle
      rw [hset]
      simp [hne, hsome]
    rw [hstage]
    rw [show ∀ l, stage_unknown f l = l from fun l => by unfold stage_unknown; rw [hsu]; simp]
    apply List.filter_congr
    intro x _
    rw [decide_eq_decide]
    constructor
    · intro hx
      rcases List.mem_map.mp hx with ⟨p, hp, hp1⟩
      rcases List.mem_filter.mp hp with ⟨hplk, hp2⟩
      exact ⟨p, hplk, hp1, by simpa using hp2⟩
    · rintro ⟨p, hplk, hp1, hp2⟩
      exact List.mem_map.mpr ⟨p, List.mem_filter.mpr ⟨hplk, by simpa using hp2⟩, hp1⟩

theorem dismantle_target_filter_spec_witness :
    name_to_id dfC6 "Target" = some 5 ∧
    filter_display dfC6 lkC6 { dismantle_to := some "Target" } = [rA] ∧
    name_to_id dfC6 "Ghost" = none ∧
    filter_display dfC6 lkC6 { dismantle_to := some "Ghost" } = [] := by
  refine ⟨by decide, ?_, by decide, ?_⟩
  · have h := (dismantle_target_filter_spec dfC6 lkC6 { dismantle_to := some "Target" }
      "Target" rfl (by decide)).2 5 (by decide) rfl rfl rfl rfl
    rw [h]
    decide
  · exact (dismantle_target_filter_spec dfC6 lkC6 { dismantle_to := some "Ghost" }
      "Ghost" rfl (by decide)).1 (by decide)

/-- C7, counterexample: with the location filter value "Unknown", a record
whose FoundIn is "Unknown Depths" (not exactly "Unknown") is kept, because
app.py line 214 applies the same substring containment to every filter value,
with no exact-equality special case for the literal "Unknown". -/
theorem location_filter_unknown_substring_cex :
    filter_display [rUD] [] { location := some "Unknown" } = [rUD] ∧
    rUD.foundIn ≠ "Unknown" := by
  exact ⟨by decide, by decide⟩

/-- C7, amended: for every location filter value L the engine keeps exactly
the records whose FoundIn contains L as a case-sensitive substring; the value
"Unknown" receives no special exact-match treatment. -/
theorem location_filter_substring (df : List DisplayRecord) (lk : List (Int × Int)) (L : String) :
    filter_display df lk { location := some L }
        = df.filter (fun x => strContainsB x.foundIn L) ∧
    (∀ x : DisplayRecord, strContainsB x.foundIn L = true ↔ L.data <:+: x.foundIn.data) := by
  constructor
  · by_cases hL : L = ""
    · subst hL
      have hall : ∀ x ∈ df, strContainsB x.foundIn "" = true := by
        intro x _
        simp [strContainsB]
      rw [show filter_display df lk { location := some "" } = df from by
        simp [filter_display, stage_rarity, stage_location, stage_craftable,
          stage_dismantle, stage_unknown]]
      rw [List.filter_eq_self.mpr hall]
    · simp [filter_display, stage_rarity, stage_location, stage_craftable,
        stage_dismantle, stage_unknown, hL]
  · intro x
    simp [strContainsB]

/-- C8: applying filter_display with no predicates set (the default filter
specification) returns the record set unchanged and in order; and for every
filter specification the result is a sublist of the input — the engine passes
input records through unmodified and never mutates the input (the embedding
of the pandas code is pure; app.py line 205 operates on a copy). -/
theorem filter_no_predicates_identity (df : List DisplayRecord) (lk : List (Int × Int)) :
    filter_display df lk {} = df ∧
    (∀ f : Filters, List.Sublist (filter_display df lk f) df) := by
  constructor
  · rfl
  · intro f
    exact ((stage_unknown_sublist f _).trans ((stage_dismantle_sublist df lk f _).trans
      ((stage_craftable_sublist f _).trans ((stage_location_sublist f _).trans
        (stage_rarity_sublist f df)))))

/-- C9, counterexample: filter_display has no nameSearch predicate; with a
nameSearch value "zzz", the record named "Bolt" is kept even though its name
does not contain "zzz" in any letter case, refuting the claimed
case-insensitive name filtering. -/
theorem nameSearch_ignored_cex :
    filter_display [rBolt] [] { nameSearch := some "zzz" } = [rBolt] ∧
    strContainsB (lowerStr rBolt.componentName) (lowerStr "zzz") = false := by
  exact ⟨by decide, by decide⟩

/-- C9, amended: the Filter Engine of app.py (filter_display, lines 203-240)
implements no nameSearch predicate at all: a nameSearch entry in the filter
specification is ignored and the result is exactly that of the same
specification without it. -/
theorem nameSearch_ignored (df : List DisplayRecord) (lk : List (Int × Int))
    (f : Filters) (n : String) :
    filter_display df lk { f with nameSearch := some n } = filter_display df lk f := by
  cases f
  rfl

/-- C10: a ComponentUsage row with an unmatched CraftableID and a
DismantleResult row with an unmatched ResultComponentID are kept, the
pipeline raises no error, and the string form str(id) of the unmatched ID is
used in place of the missing name inside the UsedIn / DismantlesInto entry
for that row. -/
theorem unmatched_foreign_id_string_fallback (t : Tables)
    (hc : comp_cols_ok t = true) (hu : usage_cols_ok t = true) (hq : usage_qty_ok t = true)
    (hds : dis_cols_ok t = true) (hdq : dis_qty_ok t = true) :
    build_display_df t = Except.ok (t.comp.map (mkRecord t), dismantle_lookup t) ∧
    (∀ u ∈ t.usage, craft_map t u.craftableID = none →
      usageEntry t u = toString u.craftableID ++ " (" ++ qtyStr (coerceNum u.qty) ++ ")" ∧
      usageEntry t u ∈ (usageRows t u.componentID).map (usageEntry t)) ∧
    (∀ d ∈ t.dis, res_map t d.res = none →
      disEntry t d = toString d.res ++ " (" ++ qtyStr (coerceNum d.qty) ++ "x)" ∧
      disEntry t d ∈ (disRows t d.src).map (disEntry t)) := by
  refine ⟨build_display_df_ok t hc (fun _ => hq) (fun _ => hdq), ?_, ?_⟩
  · intro u hu2 hmiss
    constructor
    · simp [usageEntry, hmiss]
    · exact List.mem_map_of_mem _ (by simp [usageRows, List.mem_filter, hu2])
  · intro d hd2 hmiss
    constructor
    · simp [disEntry, hmiss]
    · exact List.mem_map_of_mem _ (by simp [disRows, List.mem_filter, hd2])

theorem unmatched_foreign_id_string_fallback_witness :
    craft_map tW10 42 = none ∧
    usageEntry tW10 ⟨1, 42, some ⟨2, 1⟩⟩ = "42 (2)" ∧
    res_map tW10 77 = none ∧
    disEntry tW10 ⟨1, 77, some ⟨3, 1⟩⟩ = "77 (3x)" ∧
    (mkRecord tW10 cScrap).uses = "42 (2)" ∧
    (mkRecord tW10 cScrap).dismantlesInto = "77 (3x)" := by
  have h := unmatched_foreign_id_string_fallback tW10 (by decide) (by decide) (by decide)
    (by decide) (by decide)
  refine ⟨by decide, ?_, by decide, ?_, by decide, by decide⟩
  · exact ((h.2.1 ⟨1, 42, some ⟨2, 1⟩⟩ (by decide) (by decide)).1).trans (by decide)
  · exact ((h.2.2 ⟨1, 77, some ⟨3, 1⟩⟩ (by decide) (by decide)).1).trans (by decide)
